import Mathlib

/-!
Shallow embedding of the ordered-position reordering and access-control core of
the Aplicacioneduweb learning-management backend (FastAPI + Mongo document
store), translated from `src/backend/routes/{sections,items,courses,enrollments,
evaluation}.py` and `src/backend/models/*.py`.

Modelling conventions:
* The document store is a record of lists, one per collection, in natural
  (insertion) order.  `find_one(filter)` is `List.find?`, `update_many` is a
  guarded `List.map`, `update_one` updates the first matching record
  (`updateFirst`), `insert_one` appends.
* Identifiers (uuid strings) are `String`; uuid4 generation is externalized as
  an explicit argument where an endpoint creates records.
* Python ints are `Int`; quiz scores are `ℚ` (the source uses Python floats;
  every value the claims mention is exactly representable).
* HTTP errors raised by `HTTPException` become `Except.error` values carrying
  the status kind and the exact `detail` string from the source.  An unhandled
  Python exception (surfaced as HTTP 500) becomes `Err.internal`.
* Timestamp fields (`created_at`/`updated_at`), audit logging
  (`utils/audit.py`), category course-count bookkeeping and the free-form
  `content`/`settings` payloads are write-only with respect to every operation
  modelled here and are omitted from the records; response message strings of
  message-only endpoints are likewise dropped.
-/

namespace EduApp

/-- Error kinds produced by the routes: `notFound` is HTTP 404, `badRequest`
HTTP 400 (the source uses 400 both for duplicate keys and for the
archived-course state conflict, distinguished by the detail string),
`forbidden` HTTP 403, `internal` an unhandled Python exception (HTTP 500). -/
inductive Err where
  | notFound (detail : String)
  | badRequest (detail : String)
  | forbidden (detail : String)
  | internal (detail : String)
deriving DecidableEq, Repr

/-- The Spanish detail string of the archived-course state-conflict rejection,
identical in `courses.py`, `sections.py` and `items.py`. -/
def archivedMsg : String := "Los cursos archivados no se pueden editar"

/-- A JSON scalar as submitted in a quiz-attempt answers dict or stored as a
question's `correct_answer` (the seeded data stores Python booleans). -/
inductive PyVal where
  | str (s : String)
  | bool (b : Bool)
deriving DecidableEq, Repr

/-- Python `str()` of a `PyVal` (`str(True) = "True"`). -/
def pyStr : PyVal → String
  | .str s => s
  | .bool true => "True"
  | .bool false => "False"

/-- Python `str()` applied to a possibly-missing value (`str(None) = "None"`). -/
def pyStrOpt : Option PyVal → String
  | some v => pyStr v
  | none => "None"

/-- Python `str.lower()` (ASCII case folding suffices for the stored data);
written over the character list so that it evaluates by kernel reduction. -/
def lowerStr (s : String) : String := String.mk (s.data.map Char.toLower)

/-- The decoded bearer token consumed by the routes: `(user_id, role)`. -/
structure CurrentUser where
  user_id : String
  role : String
deriving DecidableEq, Repr

/-- A record of the `courses` collection (fields read by the modelled routes). -/
structure Course where
  id : String
  shortname : String
  fullname : String
  status : String
  visible : Bool
  created_by : Option String
deriving DecidableEq, Repr

/-- A record of the `course_sections` collection. -/
structure CourseSection where
  id : String
  course_id : String
  title : String
  position : Int
  visible : Bool
deriving DecidableEq, Repr

/-- A record of the `course_items` collection. -/
structure CourseItem where
  id : String
  section_id : String
  course_id : String
  title : String
  position : Int
  visible : Bool
deriving DecidableEq, Repr

/-- A record of the `enrollments` collection. -/
structure Enrollment where
  id : String
  course_id : String
  user_id : String
  role : String
  status : String
deriving DecidableEq, Repr

/-- A record of the `users` collection (the modelled routes only test
existence by id). -/
structure UserRec where
  id : String
  role : String
deriving DecidableEq, Repr

/-- An option of a multiple-choice question. -/
structure QOption where
  id : String
  correct : Bool
deriving DecidableEq, Repr

/-- A record of the `questions` collection.  `qtype` embeds the `type` key;
`points?` is `none` when the document lacks a `points` key (the source reads
`q.get("points", 10)`). -/
structure Question where
  id : String
  qtype : String
  points? : Option Int
  options : List QOption
  correct_answer : PyVal
deriving DecidableEq, Repr

/-- A record of the `quizzes` collection. -/
structure Quiz where
  id : String
  course_id : String
  item_id : Option String
  question_ids : List String
  passing_grade? : Option ℚ
deriving DecidableEq, Repr

/-- A record of the `quiz_attempts` collection. -/
structure QuizAttempt where
  id : String
  quiz_id : String
  user_id : String
  course_id : String
  status : String
  answers : List (String × PyVal)
  score : Option ℚ
deriving DecidableEq, Repr

/-- A record of the `grades` collection. -/
structure Grade where
  id : String
  user_id : String
  item_id : String
  course_id : String
  grade : ℚ
  graded_by : String
deriving DecidableEq, Repr

/-- The document store: one list per collection, in insertion order. -/
structure DB where
  courses : List Course
  course_sections : List CourseSection
  course_items : List CourseItem
  enrollments : List Enrollment
  users : List UserRec
  quizzes : List Quiz
  questions : List Question
  quiz_attempts : List QuizAttempt
  grades : List Grade
deriving DecidableEq, Repr

/-- Mongo `update_one(filter, {$set})`: rewrite the first record matching the
filter, leaving the rest untouched. -/
def updateFirst (p : α → Bool) (f : α → α) : List α → List α
  | [] => []
  | x :: xs => if p x then f x :: xs else x :: updateFirst p f xs

/-- Modelled from the spec: `require_roles` lives in `utils/auth.py`, which is
not under `src/`; per the spec's access-gate description a role outside the
endpoint's allowed list is a caller-visible authorization error, evaluated as a
dependency before the route body runs. -/
def require_roles (allowed : List String) (u : CurrentUser) : Except Err Unit :=
  if u.role ∈ allowed then .ok () else .error (.forbidden "Rol no autorizado")

/-- `sections.py:check_course_access`: 404 when the course is missing, the
archived state-conflict on `edit`, and for students an active-enrollment /
published-and-visible gate. -/
def check_course_access (db : DB) (course_id : String) (u : CurrentUser)
    (edit : Bool) : Except Err Course :=
  match db.courses.find? (fun c => c.id = course_id) with
  | none => .error (.notFound "Curso no encontrado")
  | some course =>
    if edit ∧ course.status = "archived" then
      .error (.badRequest archivedMsg)
    else if u.role = "student" then
      let enrollment := db.enrollments.find? (fun e =>
        e.course_id = course_id ∧ e.user_id = u.user_id ∧ e.status = "active")
      if enrollment.isNone ∧ (course.status ≠ "published" ∨ course.visible = false) then
        .error (.forbidden "No tienes acceso a este curso")
      else
        .ok course
    else
      .ok course

/-- `sections.py:move_section`: reposition a section within its course,
shifting the contiguous window of siblings between the old and new position. -/
def move_section (db : DB) (course_id section_id : String) (new_position : Int)
    (u : CurrentUser) : Except Err DB := do
  let _ ← require_roles ["admin", "teacher", "editor"] u
  let _course ← check_course_access db course_id u true
  match db.course_sections.find? (fun s => s.id = section_id ∧ s.course_id = course_id) with
  | none => .error (.notFound "Sección no encontrada")
  | some sec =>
    let old_position := sec.position
    if new_position = old_position then
      pure db
    else
      let shifted :=
        if new_position > old_position then
          db.course_sections.map (fun t =>
            if t.course_id = course_id ∧ old_position < t.position ∧ t.position ≤ new_position
            then { t with position := t.position - 1 } else t)
        else
          db.course_sections.map (fun t =>
            if t.course_id = course_id ∧ new_position ≤ t.position ∧ t.position < old_position
            then { t with position := t.position + 1 } else t)
      let final := updateFirst (fun t => t.id = section_id)
        (fun t => { t with position := new_position }) shifted
      pure { db with course_sections := final }

/-- Mongo `delete_one(filter)`: remove the first record matching the filter. -/
def deleteFirst (p : α → Bool) : List α → List α
  | [] => []
  | x :: xs => if p x then xs else x :: deleteFirst p xs

/-- Request body of `POST /courses/.../sections` (`CourseSectionCreate`).  The
pydantic model declares `position: int = 0`, so an explicitly supplied
position 0 and an omitted position produce the same parsed value. -/
structure CourseSectionCreate where
  title : String
  summary : Option String := none
  position : Int := 0
  course_id : String
deriving DecidableEq, Repr

/-- `sections.py:create_section`.  After the access checks the route computes
`next_position` and then evaluates
`CourseSection(**section_data.model_dump(), course_id=course_id, position=...)`.
`model_dump()` already contains the keys `course_id` and `position`, and a
Python call that repeats a keyword supplied through `**` raises
`TypeError: got multiple values for keyword argument`, so the construction
(and hence every successful create) is unreachable and the request surfaces
as an unhandled server error. -/
def create_section (db : DB) (course_id : String) (section_data : CourseSectionCreate)
    (u : CurrentUser) : Except Err DB := do
  let _ ← require_roles ["admin", "teacher", "editor"] u
  let _course ← check_course_access db course_id u true
  let positions := (db.course_sections.filter (fun s => s.course_id = course_id)).map
    (fun s => s.position)
  let next_position : Int := match positions.max? with | some m => m + 1 | none => 0
  let _position := if section_data.position ≠ 0 then section_data.position else next_position
  .error (.internal "TypeError: CourseSection() got multiple values for keyword argument")

/-- Request body of `PATCH .../sections/{id}` (`CourseSectionUpdate`);
`none` encodes an unset field (pydantic `exclude_unset`). -/
structure CourseSectionUpdate where
  title : Option String := none
  summary : Option String := none
  position : Option Int := none
  visible : Option Bool := none
deriving DecidableEq, Repr

/-- The `$set` of the fields supplied in a section update (the `summary`
field is not kept on the embedded record). -/
def applySectionUpdate (upd : CourseSectionUpdate) (s : CourseSection) : CourseSection :=
  { s with
    title := upd.title.getD s.title
    position := upd.position.getD s.position
    visible := upd.visible.getD s.visible }

/-- `sections.py:update_section`. -/
def update_section (db : DB) (course_id section_id : String) (upd : CourseSectionUpdate)
    (u : CurrentUser) : Except Err DB := do
  let _ ← require_roles ["admin", "teacher", "editor"] u
  let _course ← check_course_access db course_id u true
  match db.course_sections.find? (fun s => s.id = section_id ∧ s.course_id = course_id) with
  | none => .error (.notFound "Sección no encontrada")
  | some _ =>
    let final := updateFirst (fun s => s.id = section_id) (applySectionUpdate upd)
      db.course_sections
    pure { db with course_sections := final }

/-- `sections.py:delete_section`: refuses without `force` when the section
still has items; otherwise cascades the items and removes the section. -/
def delete_section (db : DB) (course_id section_id : String) (force : Bool)
    (u : CurrentUser) : Except Err DB := do
  let _ ← require_roles ["admin", "teacher"] u
  let _course ← check_course_access db course_id u true
  match db.course_sections.find? (fun s => s.id = section_id ∧ s.course_id = course_id) with
  | none => .error (.notFound "Sección no encontrada")
  | some _ =>
    let item_count := db.course_items.countP (fun i => i.section_id = section_id)
    if item_count > 0 ∧ force = false then
      .error (.badRequest s!"La sección tiene {item_count} elementos. Usa force=true para confirmar.")
    else
      let items2 :=
        if item_count > 0 then db.course_items.filter (fun i => ¬ i.section_id = section_id)
        else db.course_items
      pure { db with
        course_items := items2,
        course_sections := deleteFirst (fun s => s.id = section_id) db.course_sections }

/-- `items.py:check_section_access`: resolve the section, its course, and
apply the archived lock on `edit` (this variant has no student branch). -/
def check_section_access (db : DB) (section_id : String) (_u : CurrentUser)
    (edit : Bool) : Except Err (CourseSection × Course) :=
  match db.course_sections.find? (fun s => s.id = section_id) with
  | none => .error (.notFound "Sección no encontrada")
  | some sec =>
    match db.courses.find? (fun c => c.id = sec.course_id) with
    | none => .error (.notFound "Curso no encontrado")
    | some course =>
      if edit ∧ course.status = "archived" then .error (.badRequest archivedMsg)
      else .ok (sec, course)

/-- Request body of `POST /sections/{id}/items` (`CourseItemCreate`);
like the section model it declares `position: int = 0`. -/
structure CourseItemCreate where
  title : String
  item_type : String
  position : Int := 0
  section_id : Option String := none
deriving DecidableEq, Repr

/-- `items.py:create_item`.  Exactly as in `create_section`, the construction
`CourseItem(**item_data.model_dump(), section_id=..., course_id=..., position=...)`
repeats the keywords `section_id` and `position` already present in
`model_dump()` and raises `TypeError`, so no item is ever stored. -/
def create_item (db : DB) (section_id : String) (item_data : CourseItemCreate)
    (u : CurrentUser) : Except Err DB := do
  let _ ← require_roles ["admin", "teacher", "editor"] u
  let _sc ← check_section_access db section_id u true
  let positions := (db.course_items.filter (fun i => i.section_id = section_id)).map
    (fun i => i.position)
  let next_position : Int := match positions.max? with | some m => m + 1 | none => 0
  let _position := if item_data.position ≠ 0 then item_data.position else next_position
  .error (.internal "TypeError: CourseItem() got multiple values for keyword argument")

/-- Request body of `PATCH /items/{id}` (`CourseItemUpdate`). -/
structure CourseItemUpdate where
  title : Option String := none
  position : Option Int := none
  visible : Option Bool := none
deriving DecidableEq, Repr

/-- The `$set` of the fields supplied in an item update. -/
def applyItemUpdate (upd : CourseItemUpdate) (i : CourseItem) : CourseItem :=
  { i with
    title := upd.title.getD i.title
    position := upd.position.getD i.position
    visible := upd.visible.getD i.visible }

/-- Python `if course and course["status"] == "archived"`: the archived lock
fires only when the denormalized course record actually resolves. -/
def courseArchived : Option Course → Bool
  | some c => c.status = "archived"
  | none => false

/-- `items.py:update_item`. -/
def update_item (db : DB) (item_id : String) (upd : CourseItemUpdate)
    (u : CurrentUser) : Except Err DB := do
  let _ ← require_roles ["admin", "teacher", "editor"] u
  match db.course_items.find? (fun i => i.id = item_id) with
  | none => .error (.notFound "Item no encontrado")
  | some item =>
    if courseArchived (db.courses.find? (fun c => c.id = item.course_id)) then
      .error (.badRequest archivedMsg)
    else
      let final := updateFirst (fun i => i.id = item_id) (applyItemUpdate upd) db.course_items
      pure { db with course_items := final }

/-- `items.py:delete_item`. -/
def delete_item (db : DB) (item_id : String) (u : CurrentUser) : Except Err DB := do
  let _ ← require_roles ["admin", "teacher", "editor"] u
  match db.course_items.find? (fun i => i.id = item_id) with
  | none => .error (.notFound "Item no encontrado")
  | some item =>
    if courseArchived (db.courses.find? (fun c => c.id = item.course_id)) then
      .error (.badRequest archivedMsg)
    else
      pure { db with course_items := deleteFirst (fun i => i.id = item_id) db.course_items }

/-- `items.py:duplicate_item`: copy an item to the end of the target section
(defaulting to its own section).  Note: no archived check at all. -/
def duplicate_item (db : DB) (item_id : String) (target_section_id : Option String)
    (u : CurrentUser) (new_id : String) : Except Err DB := do
  let _ ← require_roles ["admin", "teacher", "editor"] u
  match db.course_items.find? (fun i => i.id = item_id) with
  | none => .error (.notFound "Item no encontrado")
  | some item =>
    let section_id := target_section_id.getD item.section_id
    match db.course_sections.find? (fun s => s.id = section_id) with
    | none => .error (.notFound "Sección destino no encontrada")
    | some sec =>
      let positions := (db.course_items.filter (fun i => i.section_id = section_id)).map
        (fun i => i.position)
      let next_position : Int := match positions.max? with | some m => m + 1 | none => 0
      let new_item : CourseItem :=
        { item with
          id := new_id
          section_id := section_id
          course_id := sec.course_id
          title := item.title ++ " (Copia)"
          position := next_position }
      pure { db with course_items := db.course_items ++ [new_item] }

/-- `items.py:move_item`: drag-and-drop move, within a section or across
sections.  Note: no archived check at all. -/
def move_item (db : DB) (item_id target_section_id : String) (new_position : Int)
    (u : CurrentUser) : Except Err DB := do
  let _ ← require_roles ["admin", "teacher", "editor"] u
  match db.course_items.find? (fun i => i.id = item_id) with
  | none => .error (.notFound "Item no encontrado")
  | some item =>
    match db.course_sections.find? (fun s => s.id = target_section_id) with
    | none => .error (.notFound "Sección destino no encontrada")
    | some target_section =>
      let old_section_id := item.section_id
      let old_position := item.position
      if target_section_id = old_section_id then
        if new_position = old_position then
          pure db
        else
          let shifted :=
            if new_position > old_position then
              db.course_items.map (fun t =>
                if t.section_id = old_section_id ∧ old_position < t.position ∧ t.position ≤ new_position
                then { t with position := t.position - 1 } else t)
            else
              db.course_items.map (fun t =>
                if t.section_id = old_section_id ∧ new_position ≤ t.position ∧ t.position < old_position
                then { t with position := t.position + 1 } else t)
          let final := updateFirst (fun t => t.id = item_id)
            (fun t => { t with
              section_id := target_section_id
              course_id := target_section.course_id
              position := new_position }) shifted
          pure { db with course_items := final }
      else
        let dec := db.course_items.map (fun t =>
          if t.section_id = old_section_id ∧ old_position < t.position
          then { t with position := t.position - 1 } else t)
        let inc := dec.map (fun t =>
          if t.section_id = target_section_id ∧ new_position ≤ t.position
          then { t with position := t.position + 1 } else t)
        let final := updateFirst (fun t => t.id = item_id)
          (fun t => { t with
            section_id := target_section_id
            course_id := target_section.course_id
            position := new_position }) inc
        pure { db with course_items := final }

/-- `items.py:toggle_item_visibility`.  Note: no archived check at all. -/
def toggle_item_visibility (db : DB) (item_id : String) (visible : Bool)
    (u : CurrentUser) : Except Err DB := do
  let _ ← require_roles ["admin", "teacher", "editor"] u
  match db.course_items.find? (fun i => i.id = item_id) with
  | none => .error (.notFound "Item no encontrado")
  | some _ =>
    let final := updateFirst (fun i => i.id = item_id)
      (fun i => { i with visible := visible }) db.course_items
    pure { db with course_items := final }

/-- Request body of `PATCH /courses/{id}` (`CourseUpdate`); `none` encodes an
unset field.  The source model carries further optional scalar and nested
fields (summary, tags, settings, …) which update by the same `$set` mechanism
and are never read back by any modelled operation, so they are not kept. -/
structure CourseUpdate where
  fullname : Option String := none
  shortname : Option String := none
  visible : Option Bool := none
  status : Option String := none
deriving DecidableEq, Repr

/-- The `$set` of the fields supplied in a course update. -/
def applyCourseUpdate (upd : CourseUpdate) (c : Course) : Course :=
  { c with
    fullname := upd.fullname.getD c.fullname
    shortname := upd.shortname.getD c.shortname
    visible := upd.visible.getD c.visible
    status := upd.status.getD c.status }

/-- `courses.py:update_course`: 404 on a missing course, the archived lock
(before any ownership check, and with no exemption for status-changing
updates), then for teachers who are not the creator a gate requiring an
enrollment with `role="teacher"` in this course — the query has no `status`
filter — then the shortname-uniqueness check, then the update. -/
def update_course (db : DB) (course_id : String) (upd : CourseUpdate)
    (u : CurrentUser) : Except Err DB := do
  let _ ← require_roles ["admin", "teacher", "editor"] u
  match db.courses.find? (fun c => c.id = course_id) with
  | none => .error (.notFound "Curso no encontrado")
  | some course =>
    if course.status = "archived" then
      .error (.badRequest archivedMsg)
    else
      let teacherGate : Except Err Unit :=
        if u.role = "teacher" ∧ course.created_by ≠ some u.user_id then
          if (db.enrollments.find? (fun e =>
              e.course_id = course_id ∧ e.user_id = u.user_id ∧ e.role = "teacher")).isNone then
            .error (.forbidden "No tienes permisos para editar este curso")
          else .ok ()
        else .ok ()
      let _ ← teacherGate
      let shortnameCheck : Except Err Unit :=
        match upd.shortname with
        | some s =>
          if s ≠ course.shortname ∧ db.courses.any (fun c2 => c2.shortname = s) then
            .error (.badRequest "Ya existe un curso con ese nombre corto")
          else .ok ()
        | none => .ok ()
      let _ ← shortnameCheck
      let final := updateFirst (fun c => c.id = course_id) (applyCourseUpdate upd) db.courses
      pure { db with courses := final }

/-- One iteration of the `action == "delete"` loop of
`courses.py:bulk_course_action`: cascade-delete a course if it exists. -/
def bulk_delete_course (db : DB) (cid : String) : DB :=
  match db.courses.find? (fun c => c.id = cid) with
  | none => db
  | some _ =>
    { db with
      course_sections := db.course_sections.filter (fun s => ¬ s.course_id = cid)
      course_items := db.course_items.filter (fun i => ¬ i.course_id = cid)
      enrollments := db.enrollments.filter (fun e => ¬ e.course_id = cid)
      courses := deleteFirst (fun c => c.id = cid) db.courses }

/-- `courses.py:bulk_course_action`: hide/show/suspend/archive apply a
`update_many` `$set` over every course whose id is listed, with no check of
the course's current status; delete (admin only) cascade-deletes each listed
course. -/
def bulk_course_action (db : DB) (course_ids : List String) (action : String)
    (u : CurrentUser) : Except Err DB := do
  let _ ← require_roles ["admin", "teacher"] u
  if action = "delete" ∧ u.role ≠ "admin" then
    .error (.forbidden "Solo los administradores pueden eliminar cursos")
  else if action = "hide" then
    pure { db with courses := db.courses.map (fun c =>
      if c.id ∈ course_ids then { c with visible := false } else c) }
  else if action = "show" then
    pure { db with courses := db.courses.map (fun c =>
      if c.id ∈ course_ids then { c with visible := true } else c) }
  else if action = "suspend" then
    pure { db with courses := db.courses.map (fun c =>
      if c.id ∈ course_ids then { c with status := "suspended" } else c) }
  else if action = "archive" then
    pure { db with courses := db.courses.map (fun c =>
      if c.id ∈ course_ids then { c with status := "archived" } else c) }
  else if action = "delete" then
    pure (course_ids.foldl bulk_delete_course db)
  else
    .error (.badRequest "Acción no válida")

/-- The enrollment record constructed by `bulk_enroll`
(pydantic defaults: `status="active"`). -/
def mkEnrollment (id course_id user_id role : String) : Enrollment :=
  { id := id, course_id := course_id, user_id := user_id, role := role, status := "active" }

/-- The `for user_id in user_ids` loop of `enrollments.py:bulk_enroll`:
skip a missing user, skip an id already enrolled in the course (including one
enrolled earlier in the same batch), otherwise insert a fresh enrollment.
`uuid k` is the k-th generated uuid of the batch. -/
def bulk_enroll_loop (uuid : Nat → String) (course_id role : String) :
    DB → List String → Nat → Nat → Nat → DB × Nat × Nat
  | db, [], _, enrolled, skipped => (db, enrolled, skipped)
  | db, user_id :: rest, k, enrolled, skipped =>
    if (db.users.find? (fun usr => usr.id = user_id)).isNone then
      bulk_enroll_loop uuid course_id role db rest k enrolled (skipped + 1)
    else if (db.enrollments.find? (fun e =>
        e.course_id = course_id ∧ e.user_id = user_id)).isSome then
      bulk_enroll_loop uuid course_id role db rest k enrolled (skipped + 1)
    else
      bulk_enroll_loop uuid course_id role
        { db with enrollments := db.enrollments ++ [mkEnrollment (uuid k) course_id user_id role] }
        rest (k + 1) (enrolled + 1) skipped

/-- `enrollments.py:bulk_enroll`: 404 when the course is missing, otherwise
partial-success processing of the id list, returning `(enrolled, skipped)`. -/
def bulk_enroll (db : DB) (course_id : String) (user_ids : List String) (role : String)
    (u : CurrentUser) (uuid : Nat → String) : Except Err (DB × Nat × Nat) := do
  let _ ← require_roles ["admin", "teacher"] u
  match db.courses.find? (fun c => c.id = course_id) with
  | none => .error (.notFound "Curso no encontrado")
  | some _ => pure (bulk_enroll_loop uuid course_id role db user_ids 0 0 0)

/-- `q.get("points", 10)`. -/
def questionPoints (q : Question) : Int := q.points?.getD 10

/-- The per-question branch of the scoring loop of
`evaluation.py:submit_quiz_attempt`: a multiple-choice question is correct
when the submitted value equals the id of the first option flagged correct;
a true/false question when the stringified answer equals the stringified
stored `correct_answer` case-insensitively; any other type earns nothing. -/
def gradeQuestion (q : Question) (user_answer : Option PyVal) : Bool :=
  if q.qtype = "multiple_choice" then
    match q.options.find? (fun o => o.correct) with
    | some correct => user_answer = some (.str correct.id)
    | none => false
  else if q.qtype = "true_false" then
    lowerStr (pyStrOpt user_answer) = lowerStr (pyStr q.correct_answer)
  else false

/-- The `earned_points` accumulation loop. -/
def earnedPointsLoop (answers : List (String × PyVal)) : List Question → Int → Int
  | [], acc => acc
  | q :: rest, acc =>
    if gradeQuestion q (answers.lookup q.id) then
      earnedPointsLoop answers rest (acc + questionPoints q)
    else
      earnedPointsLoop answers rest acc

/-- Python `round(x, 2)`, modelled on exact rationals.  (CPython rounds the
nearest-double tie to even; no value involved in the specified behaviour is a
tie, so nearest rounding is the faithful model.) -/
def round2 (x : ℚ) : ℚ := (round (x * 100) : ℤ) / 100

/-- `evaluation.py:submit_quiz_attempt`: ownership and re-submission guards,
score computation over the quiz's questions, attempt completion, and a grade
upsert when the quiz is bound to an item.  Returns the new store together
with the response `(score, earned_points, total_points, passed)`.
A missing quiz record would make the Python body dereference `None`
(HTTP 500), modelled as `Err.internal`. -/
def submit_quiz_attempt (db : DB) (attempt_id : String) (answers : List (String × PyVal))
    (u : CurrentUser) (grade_id : String) : Except Err (DB × ℚ × Int × Int × Bool) :=
  match db.quiz_attempts.find? (fun a => a.id = attempt_id) with
  | none => .error (.notFound "Intento no encontrado")
  | some att =>
    if att.user_id ≠ u.user_id then .error (.forbidden "No autorizado")
    else if att.status ≠ "in_progress" then .error (.badRequest "Este intento ya fue enviado")
    else
      match db.quizzes.find? (fun qz => qz.id = att.quiz_id) with
      | none => .error (.internal "AttributeError: NoneType has no attribute get")
      | some quiz =>
        let questions := db.questions.filter (fun q => q.id ∈ quiz.question_ids)
        let total_points : Int := (questions.map questionPoints).sum
        let earned_points : Int := earnedPointsLoop answers questions 0
        let score : ℚ :=
          if total_points > 0 then (earned_points : ℚ) / (total_points : ℚ) * 100 else 0
        let attempts2 := updateFirst (fun a => a.id = attempt_id)
          (fun a => { a with answers := answers, score := some (round2 score), status := "completed" })
          db.quiz_attempts
        let db2 := { db with quiz_attempts := attempts2 }
        let db3 :=
          match quiz.item_id with
          | none => db2
          | some item_id =>
            if db2.grades.any (fun g =>
                g.user_id = u.user_id ∧ g.item_id = item_id ∧ g.course_id = quiz.course_id) then
              let grades2 := updateFirst (fun g =>
                  g.user_id = u.user_id ∧ g.item_id = item_id ∧ g.course_id = quiz.course_id)
                (fun g => { g with id := grade_id, grade := score, graded_by := "system" })
                db2.grades
              { db2 with grades := grades2 }
            else
              { db2 with grades := db2.grades ++
                [{ id := grade_id, user_id := u.user_id, item_id := item_id,
                   course_id := quiz.course_id, grade := score, graded_by := "system" }] }
        .ok (db3, round2 score, earned_points, total_points,
          decide (score ≥ quiz.passing_grade?.getD 60))

/-! ## Claim-side reference functions

These re-state, record by record, what the spec's sentences say an operation
does; the claim theorems prove the endpoint functions above equal to a single
`List.map` of these. -/

/-- The within-scope shift of the claim: moving later decrements the window
`old < p ≤ new`, moving earlier increments the window `new ≤ p < old`,
everything else is untouched. -/
def specShiftPos (oldp newp p : Int) : Int :=
  if newp > oldp then (if oldp < p ∧ p ≤ newp then p - 1 else p)
  else (if newp ≤ p ∧ p < oldp then p + 1 else p)

/-- Per-record effect of a within-course section move per the claim: the moved
section is set to the new position, every other section of the course gets the
window shift, sections of other courses are untouched. -/
def specMoveSection (cid sid : String) (oldp newp : Int) (t : CourseSection) : CourseSection :=
  if t.id = sid then { t with position := newp }
  else if t.course_id = cid then { t with position := specShiftPos oldp newp t.position }
  else t

/-- Per-record effect of a same-section item move per the claim (the moved
item's section and denormalized course references are rewritten to the target
section's — unchanged — values, as the source's final `$set` does). -/
def specMoveItemSame (sid tcid iid : String) (oldp newp : Int) (x : CourseItem) : CourseItem :=
  if x.id = iid then { x with section_id := sid, course_id := tcid, position := newp }
  else if x.section_id = sid then { x with position := specShiftPos oldp newp x.position }
  else x

/-- Per-record effect of a cross-section item move per the claim: the gap in
the old section closes (`p > old` decrements), a slot opens in the target
section (`p ≥ new` increments), and the moved item is re-parented. -/
def specMoveItemCross (osid nsid ncid iid : String) (oldp newp : Int) (x : CourseItem) : CourseItem :=
  if x.id = iid then { x with section_id := nsid, course_id := ncid, position := newp }
  else if x.section_id = osid ∧ oldp < x.position then { x with position := x.position - 1 }
  else if x.section_id = nsid ∧ newp ≤ x.position then { x with position := x.position + 1 }
  else x

/-! ## List helper lemmas -/

theorem ok_bind {ε α β : Type} (a : α) (f : α → Except ε β) :
    (Except.ok a >>= f : Except ε β) = f a := rfl

theorem pure_eq_ok {ε α : Type} (a : α) : (pure a : Except ε α) = Except.ok a := rfl

theorem map_if_id_of_countP_zero {α : Type} (p : α → Bool) (f : α → α) :
    ∀ l : List α, l.countP p = 0 → (l.map fun x => if p x then f x else x) = l := by
  intro l h
  induction l with
  | nil => rfl
  | cons a t ih =>
    rw [List.countP_cons] at h
    by_cases hpa : p a
    · simp [hpa] at h
    · simp only [List.map_cons, hpa, if_neg, Bool.false_eq_true, not_false_iff, ite_false]
      simp only [hpa, if_false] at h
      rw [ih (by omega)]

theorem updateFirst_eq_map {α : Type} (p : α → Bool) (f : α → α) :
    ∀ l : List α, l.countP p ≤ 1 →
      updateFirst p f l = l.map fun x => if p x then f x else x := by
  intro l h
  induction l with
  | nil => rfl
  | cons a t ih =>
    rw [List.countP_cons] at h
    by_cases hpa : p a
    · have h0 : t.countP p = 0 := by
        have h1 : (if p a then 1 else 0) = 1 := by simp [hpa]
        rw [h1] at h
        omega
      simp only [updateFirst, hpa, if_true, List.map_cons, ite_true]
      rw [map_if_id_of_countP_zero p f t h0]
    · simp only [updateFirst, hpa, if_false, List.map_cons, ite_false, Bool.false_eq_true]
      simp only [hpa, if_false] at h
      rw [ih h]

theorem countP_proj_le_one {α β : Type} [DecidableEq β] (f : α → β) (b : β) :
    ∀ l : List α, (l.map f).Nodup → l.countP (fun x => f x = b) ≤ 1 := by
  intro l h
  induction l with
  | nil => simp
  | cons a t ih =>
    rw [List.map_cons, List.nodup_cons] at h
    rw [List.countP_cons]
    by_cases hfa : f a = b
    · have h0 : t.countP (fun x => f x = b) = 0 := by
        rw [List.countP_eq_zero]
        intro x hx hxb
        refine h.1 ?_
        rw [decide_eq_true_eq] at hxb
        rw [hfa, ← hxb]
        exact List.mem_map_of_mem f hx
      simp [hfa, h0]
    · simp [hfa]
      exact ih h.2

/-- A `update_many` shift (`List.map f`) followed by a `update_one` on a key
(`updateFirst`) collapses to a single map of the composed per-record function,
provided the shift preserves the key projection and the keys are distinct. -/
theorem updateFirst_map_comp {α β : Type} [DecidableEq β] (fid : α → β) (b : β)
    (f g spec : α → α) (l : List α)
    (hnodup : (l.map fid).Nodup)
    (hfid : ∀ t, fid (f t) = fid t)
    (hpt : ∀ t, (if fid (f t) = b then g (f t) else f t) = spec t) :
    updateFirst (fun t => fid t = b) g (l.map f) = l.map spec := by
  have hidpres : ((l.map f).map fid) = l.map fid := by
    rw [List.map_map]
    apply List.map_congr_left
    intro t _
    exact hfid t
  have hcnt := countP_proj_le_one fid b (l.map f) (hidpres ▸ hnodup)
  rw [updateFirst_eq_map _ _ _ hcnt, List.map_map]
  apply List.map_congr_left
  intro t _
  dsimp only [Function.comp]
  simp only [decide_eq_true_eq]
  exact hpt t

/-- C1: within-scope move semantics.  For a section of a course (respectively
an item moved to its own section), a move to the entity's current position is
a no-op, and otherwise the store is exactly the claim's per-record window
shift: moving later decrements siblings with `old < p ≤ new`, moving earlier
increments siblings with `new ≤ p < old`, the moved entity gets the new
position, and every other record is unchanged. -/
theorem C1_move_within_scope (db : DB) (u : CurrentUser)
    (hrole : u.role ∈ ["admin", "teacher", "editor"]) :
    (∀ (cid sid : String) (newp : Int) (c : Course) (s : CourseSection),
      check_course_access db cid u true = .ok c →
      db.course_sections.find? (fun t => t.id = sid ∧ t.course_id = cid) = some s →
      (db.course_sections.map fun t => t.id).Nodup →
      (newp = s.position → move_section db cid sid newp u = .ok db) ∧
      (newp ≠ s.position → move_section db cid sid newp u =
        .ok { db with course_sections :=
          db.course_sections.map (specMoveSection cid sid s.position newp) })) ∧
    (∀ (iid : String) (newp : Int) (it : CourseItem) (tsec : CourseSection),
      db.course_items.find? (fun i => i.id = iid) = some it →
      db.course_sections.find? (fun t => t.id = it.section_id) = some tsec →
      (db.course_items.map fun i => i.id).Nodup →
      (newp = it.position → move_item db iid it.section_id newp u = .ok db) ∧
      (newp ≠ it.position → move_item db iid it.section_id newp u =
        .ok { db with course_items :=
          db.course_items.map (specMoveItemSame it.section_id tsec.course_id iid it.position newp) })) := by
  have hrr : require_roles ["admin", "teacher", "editor"] u = .ok () := by
    simp [require_roles, hrole]
  constructor
  · intro cid sid newp c s hacc hfind hnodup
    constructor
    · intro heq
      simp only [move_section, hrr, ok_bind, hacc, hfind]
      rw [if_pos heq]
      rfl
    · intro hne
      simp only [move_section, hrr, ok_bind, hacc, hfind]
      rw [if_neg hne, pure_eq_ok]
      by_cases hgt : newp > s.position
      · rw [if_pos hgt]
        rw [updateFirst_map_comp (fun t : CourseSection => t.id) sid _ _
          (specMoveSection cid sid s.position newp) db.course_sections hnodup
          (by intro t; dsimp only; split <;> rfl)
          (by intro t
              cases t with
              | mk tid tcid ttl tpos tvis =>
                simp only [specMoveSection, specShiftPos, if_pos hgt]
                split_ifs <;> simp_all)]
      · rw [if_neg hgt]
        rw [updateFirst_map_comp (fun t : CourseSection => t.id) sid _ _
          (specMoveSection cid sid s.position newp) db.course_sections hnodup
          (by intro t; dsimp only; split <;> rfl)
          (by intro t
              cases t with
              | mk tid tcid ttl tpos tvis =>
                simp only [specMoveSection, specShiftPos, if_neg hgt]
                split_ifs <;> simp_all)]
  · intro iid newp it tsec hfind hsec hnodup
    constructor
    · intro heq
      simp only [move_item, hrr, ok_bind, hfind, hsec]
      rw [if_pos trivial, if_pos heq]
      rfl
    · intro hne
      simp only [move_item, hrr, ok_bind, hfind, hsec]
      rw [if_pos trivial, if_neg hne, pure_eq_ok]
      by_cases hgt : newp > it.position
      · rw [if_pos hgt]
        rw [updateFirst_map_comp (fun t : CourseItem => t.id) iid _ _
          (specMoveItemSame it.section_id tsec.course_id iid it.position newp)
          db.course_items hnodup
          (by intro t; dsimp only; split <;> rfl)
          (by intro t
              cases t with
              | mk tid tsid tcid ttl tpos tvis =>
                simp only [specMoveItemSame, specShiftPos, if_pos hgt]
                split_ifs <;> simp_all)]
      · rw [if_neg hgt]
        rw [updateFirst_map_comp (fun t : CourseItem => t.id) iid _ _
          (specMoveItemSame it.section_id tsec.course_id iid it.position newp)
          db.course_items hnodup
          (by intro t; dsimp only; split <;> rfl)
          (by intro t
              cases t with
              | mk tid tsid tcid ttl tpos tvis =>
                simp only [specMoveItemSame, specShiftPos, if_neg hgt]
                split_ifs <;> simp_all)]

/-! ## Concrete fixtures for witnesses and counterexamples -/

deriving instance DecidableEq for Except

/-- A store with every collection empty. -/
def emptyDB : DB :=
  { courses := [], course_sections := [], course_items := [], enrollments := [],
    users := [], quizzes := [], questions := [], quiz_attempts := [], grades := [] }

/-- An authenticated admin. -/
def uAdmin : CurrentUser := { user_id := "u-admin", role := "admin" }

/-- A draft course used by the reorder witnesses. -/
def courseC1 : Course :=
  { id := "c1", shortname := "cs1", fullname := "Curso 1", status := "draft",
    visible := true, created_by := some "u-admin" }

/-- One section of the P2 five-section course. -/
def mkSec (id : String) (pos : Int) : CourseSection :=
  { id := id, course_id := "c1", title := id, position := pos, visible := true }

/-- The P2 scenario: a five-section course with positions 0..4. -/
def dbP2 : DB :=
  { emptyDB with
    courses := [courseC1]
    course_sections := [mkSec "s0" 0, mkSec "s1" 1, mkSec "s2" 2, mkSec "s3" 3, mkSec "s4" 4] }

/-- C1 witness: in the P2 course, moving the section at position 2 to
position 0 shifts the sections previously at 0,1 to 1,2, puts the moved
section at 0 and leaves positions 3,4 untouched. -/
theorem C1_move_within_scope_witness :
    (uAdmin.role ∈ ["admin", "teacher", "editor"]) ∧
    check_course_access dbP2 "c1" uAdmin true = .ok courseC1 ∧
    dbP2.course_sections.find? (fun t => t.id = "s2" ∧ t.course_id = "c1") = some (mkSec "s2" 2) ∧
    (dbP2.course_sections.map fun t => t.id).Nodup ∧
    (0 : Int) ≠ (mkSec "s2" 2).position ∧
    move_section dbP2 "c1" "s2" 0 uAdmin =
      .ok { dbP2 with course_sections :=
        dbP2.course_sections.map (specMoveSection "c1" "s2" (mkSec "s2" 2).position 0) } ∧
    ((dbP2.course_sections.map (specMoveSection "c1" "s2" (mkSec "s2" 2).position 0)).map
      fun t => (t.id, t.position)) = [("s0", 1), ("s1", 2), ("s2", 0), ("s3", 3), ("s4", 4)] := by
  refine ⟨by decide, by decide, by decide, by decide, by decide, ?_, by decide⟩
  exact ((C1_move_within_scope dbP2 uAdmin (by decide)).1 "c1" "s2" 0 courseC1
    (mkSec "s2" 2) (by decide) (by decide) (by decide)).2 (by decide)

/-- C4: cross-scope item move.  Moving an item to a different section closes
the gap in the old section (`p > old` decrements), opens a slot in the target
section (`p ≥ new` increments), applies both shifts, and re-parents the moved
item (section reference, denormalized course reference, position). -/
theorem C4_move_cross_scope (db : DB) (u : CurrentUser)
    (hrole : u.role ∈ ["admin", "teacher", "editor"]) :
    ∀ (iid tsid : String) (newp : Int) (it : CourseItem) (tsec : CourseSection),
      db.course_items.find? (fun i => i.id = iid) = some it →
      db.course_sections.find? (fun s => s.id = tsid) = some tsec →
      tsid ≠ it.section_id →
      (db.course_items.map fun i => i.id).Nodup →
      move_item db iid tsid newp u =
        .ok { db with course_items :=
          db.course_items.map (specMoveItemCross it.section_id tsid tsec.course_id iid it.position newp) } := by
  have hrr : require_roles ["admin", "teacher", "editor"] u = .ok () := by
    simp [require_roles, hrole]
  intro iid tsid newp it tsec hfind hsec hne hnodup
  simp only [move_item, hrr, ok_bind, hfind, hsec]
  rw [if_neg hne, pure_eq_ok, List.map_map]
  rw [updateFirst_map_comp (fun t : CourseItem => t.id) iid _ _
    (specMoveItemCross it.section_id tsid tsec.course_id iid it.position newp)
    db.course_items hnodup
    (by intro t
        dsimp only [Function.comp]
        split_ifs <;> rfl)
    (by intro t
        cases t with
        | mk tid tsid2 tcid ttl tpos tvis =>
          dsimp only [Function.comp]
          simp only [specMoveItemCross]
          split_ifs <;> simp_all)]

/-- One item of the P3 fixture. -/
def mkItem (id sid : String) (pos : Int) : CourseItem :=
  { id := id, section_id := sid, course_id := "c1", title := id, position := pos, visible := true }

/-- The P3 scenario: section `sA` with three items at 0,1,2 and section `sB`
with two items at 0,1, in a draft course. -/
def dbP3 : DB :=
  { emptyDB with
    courses := [courseC1]
    course_sections := [mkSec "sA" 0, mkSec "sB" 1]
    course_items := [mkItem "a0" "sA" 0, mkItem "a1" "sA" 1, mkItem "a2" "sA" 2,
                     mkItem "b0" "sB" 0, mkItem "b1" "sB" 1] }

/-- C4 witness: moving item `a1` (section `sA`, position 1 of 3) to section
`sB` position 0 leaves `sA` with positions {0,1} and `sB` with positions
{0,1,2}, the moved item at `sB`:0. -/
theorem C4_move_cross_scope_witness :
    (uAdmin.role ∈ ["admin", "teacher", "editor"]) ∧
    dbP3.course_items.find? (fun i => i.id = "a1") = some (mkItem "a1" "sA" 1) ∧
    dbP3.course_sections.find? (fun s => s.id = "sB") = some (mkSec "sB" 1) ∧
    "sB" ≠ (mkItem "a1" "sA" 1).section_id ∧
    (dbP3.course_items.map fun i => i.id).Nodup ∧
    move_item dbP3 "a1" "sB" 0 uAdmin =
      .ok { dbP3 with course_items :=
        dbP3.course_items.map (specMoveItemCross "sA" "sB" "c1" "a1" 1 0) } ∧
    ((dbP3.course_items.map (specMoveItemCross "sA" "sB" "c1" "a1" 1 0)).map
      fun i => (i.id, i.section_id, i.position)) =
      [("a0", "sA", 0), ("a1", "sB", 0), ("a2", "sA", 1), ("b0", "sB", 1), ("b1", "sB", 2)] := by
  refine ⟨by decide, by decide, by decide, by decide, by decide, ?_, by decide⟩
  exact C4_move_cross_scope dbP3 uAdmin (by decide) "a1" "sB" 0 (mkItem "a1" "sA" 1)
    (mkSec "sB" 1) (by decide) (by decide) (by decide) (by decide)

theorem error_bind {ε α β : Type} (e : ε) (f : α → Except ε β) :
    (Except.error e >>= f : Except ε β) = Except.error e := rfl

theorem map_ok {ε α β : Type} (f : α → β) (a : α) :
    (f <$> (Except.ok a : Except ε α)) = Except.ok (f a) := rfl

theorem map_error {ε α β : Type} (f : α → β) (e : ε) :
    (f <$> (Except.error e : Except ε α)) = Except.error e := rfl

theorem check_course_access_archived (db : DB) (cid : String) (u : CurrentUser) (c : Course)
    (hc : db.courses.find? (fun x => x.id = cid) = some c) (ha : c.status = "archived") :
    check_course_access db cid u true = .error (.badRequest archivedMsg) := by
  simp [check_course_access, hc, ha]

theorem check_section_access_archived (db : DB) (sid : String) (u : CurrentUser)
    (sec : CourseSection) (c : Course)
    (hs : db.course_sections.find? (fun x => x.id = sid) = some sec)
    (hc : db.courses.find? (fun x => x.id = sec.course_id) = some c)
    (ha : c.status = "archived") :
    check_section_access db sid u true = .error (.badRequest archivedMsg) := by
  simp [check_section_access, hs, hc, ha]

theorem move_item_no_badRequest (db : DB) (iid tsid : String) (newp : Int)
    (u : CurrentUser) (d : String) :
    move_item db iid tsid newp u ≠ .error (.badRequest d) := by
  unfold move_item require_roles
  split
  · simp only [ok_bind]
    rcases hfi : db.course_items.find? (fun i => i.id = iid) with _ | it <;>
      simp only [hfi]
    · simp
    · rcases hfs : db.course_sections.find? (fun s => s.id = tsid) with _ | tsec <;>
        simp only [hfs]
      · simp
      · split_ifs <;> simp [pure_eq_ok]
  · simp [error_bind]

theorem duplicate_item_no_badRequest (db : DB) (iid : String) (t : Option String)
    (u : CurrentUser) (nid : String) (d : String) :
    duplicate_item db iid t u nid ≠ .error (.badRequest d) := by
  unfold duplicate_item require_roles
  split
  · simp only [ok_bind]
    rcases hfi : db.course_items.find? (fun i => i.id = iid) with _ | it <;>
      simp only [hfi]
    · simp
    · rcases hfs : db.course_sections.find? (fun s => s.id = t.getD it.section_id) with _ | sec <;>
        simp only [hfs]
      · simp
      · simp [pure_eq_ok]
  · simp [error_bind]

theorem toggle_item_visibility_no_badRequest (db : DB) (iid : String) (v : Bool)
    (u : CurrentUser) (d : String) :
    toggle_item_visibility db iid v u ≠ .error (.badRequest d) := by
  unfold toggle_item_visibility require_roles
  split
  · simp only [ok_bind]
    rcases hfi : db.course_items.find? (fun i => i.id = iid) with _ | it <;>
      simp only [hfi]
    · simp
    · simp [pure_eq_ok]
  · simp [error_bind]

/-- C2 (amended): for actors admitted by the role gate, create/update/delete
of a section or item of an archived course, and a section move, are rejected
with the archived state-conflict error before any data change; but the item
move, item duplicate and item visibility-change endpoints have no archived
check at all and can never produce that rejection. -/
theorem C2_archived_lock :
    (∀ (db : DB) (cid : String) (data : CourseSectionCreate) (u : CurrentUser) (c : Course),
      u.role ∈ ["admin", "teacher", "editor"] →
      db.courses.find? (fun x => x.id = cid) = some c → c.status = "archived" →
      create_section db cid data u = .error (.badRequest archivedMsg)) ∧
    (∀ (db : DB) (cid sid : String) (upd : CourseSectionUpdate) (u : CurrentUser) (c : Course),
      u.role ∈ ["admin", "teacher", "editor"] →
      db.courses.find? (fun x => x.id = cid) = some c → c.status = "archived" →
      update_section db cid sid upd u = .error (.badRequest archivedMsg)) ∧
    (∀ (db : DB) (cid sid : String) (force : Bool) (u : CurrentUser) (c : Course),
      u.role ∈ ["admin", "teacher"] →
      db.courses.find? (fun x => x.id = cid) = some c → c.status = "archived" →
      delete_section db cid sid force u = .error (.badRequest archivedMsg)) ∧
    (∀ (db : DB) (cid sid : String) (newp : Int) (u : CurrentUser) (c : Course),
      u.role ∈ ["admin", "teacher", "editor"] →
      db.courses.find? (fun x => x.id = cid) = some c → c.status = "archived" →
      move_section db cid sid newp u = .error (.badRequest archivedMsg)) ∧
    (∀ (db : DB) (sid : String) (data : CourseItemCreate) (u : CurrentUser)
        (sec : CourseSection) (c : Course),
      u.role ∈ ["admin", "teacher", "editor"] →
      db.course_sections.find? (fun x => x.id = sid) = some sec →
      db.courses.find? (fun x => x.id = sec.course_id) = some c → c.status = "archived" →
      create_item db sid data u = .error (.badRequest archivedMsg)) ∧
    (∀ (db : DB) (iid : String) (upd : CourseItemUpdate) (u : CurrentUser)
        (it : CourseItem) (c : Course),
      u.role ∈ ["admin", "teacher", "editor"] →
      db.course_items.find? (fun x => x.id = iid) = some it →
      db.courses.find? (fun x => x.id = it.course_id) = some c → c.status = "archived" →
      update_item db iid upd u = .error (.badRequest archivedMsg)) ∧
    (∀ (db : DB) (iid : String) (u : CurrentUser) (it : CourseItem) (c : Course),
      u.role ∈ ["admin", "teacher", "editor"] →
      db.course_items.find? (fun x => x.id = iid) = some it →
      db.courses.find? (fun x => x.id = it.course_id) = some c → c.status = "archived" →
      delete_item db iid u = .error (.badRequest archivedMsg)) ∧
    (∀ (db : DB) (iid tsid : String) (newp : Int) (u : CurrentUser) (d : String),
      move_item db iid tsid newp u ≠ .error (.badRequest d)) ∧
    (∀ (db : DB) (iid : String) (t : Option String) (u : CurrentUser) (nid d : String),
      duplicate_item db iid t u nid ≠ .error (.badRequest d)) ∧
    (∀ (db : DB) (iid : String) (v : Bool) (u : CurrentUser) (d : String),
      toggle_item_visibility db iid v u ≠ .error (.badRequest d)) := by
  refine ⟨?_, ?_, ?_, ?_, ?_, ?_, ?_,
    move_item_no_badRequest, duplicate_item_no_badRequest, toggle_item_visibility_no_badRequest⟩
  · intro db cid data u c hrole hc ha
    have hrr : require_roles ["admin", "teacher", "editor"] u = .ok () := by
      simp [require_roles, hrole]
    simp only [create_section, hrr, ok_bind,
      check_course_access_archived db cid u c hc ha, error_bind]
  · intro db cid sid upd u c hrole hc ha
    have hrr : require_roles ["admin", "teacher", "editor"] u = .ok () := by
      simp [require_roles, hrole]
    simp only [update_section, hrr, ok_bind,
      check_course_access_archived db cid u c hc ha, error_bind]
  · intro db cid sid force u c hrole hc ha
    have hrr : require_roles ["admin", "teacher"] u = .ok () := by
      simp [require_roles, hrole]
    simp only [delete_section, hrr, ok_bind,
      check_course_access_archived db cid u c hc ha, error_bind]
  · intro db cid sid newp u c hrole hc ha
    have hrr : require_roles ["admin", "teacher", "editor"] u = .ok () := by
      simp [require_roles, hrole]
    simp only [move_section, hrr, ok_bind,
      check_course_access_archived db cid u c hc ha, error_bind]
  · intro db sid data u sec c hrole hs hc ha
    have hrr : require_roles ["admin", "teacher", "editor"] u = .ok () := by
      simp [require_roles, hrole]
    simp only [create_item, hrr, ok_bind,
      check_section_access_archived db sid u sec c hs hc ha, error_bind]
  · intro db iid upd u it c hrole hi hc ha
    have hrr : require_roles ["admin", "teacher", "editor"] u = .ok () := by
      simp [require_roles, hrole]
    simp only [update_item, hrr, ok_bind, hi]
    simp [courseArchived, hc, ha]
  · intro db iid u it c hrole hi hc ha
    have hrr : require_roles ["admin", "teacher", "editor"] u = .ok () := by
      simp [require_roles, hrole]
    simp only [delete_item, hrr, ok_bind, hi]
    simp [courseArchived, hc, ha]

/-- The archived course of the C2/C8 fixtures. -/
def courseArch : Course :=
  { id := "cA", shortname := "csA", fullname := "Curso A", status := "archived",
    visible := true, created_by := some "t-owner" }

/-- First section of the archived course. -/
def secA1 : CourseSection :=
  { id := "sA1", course_id := "cA", title := "SA1", position := 0, visible := true }

/-- Second section of the archived course. -/
def secA2 : CourseSection :=
  { id := "sA2", course_id := "cA", title := "SA2", position := 1, visible := true }

/-- An item inside the archived course. -/
def itemA1 : CourseItem :=
  { id := "iA1", section_id := "sA1", course_id := "cA", title := "IA1", position := 0,
    visible := true }

/-- A store holding one archived course with two sections and one item. -/
def dbArch : DB :=
  { emptyDB with
    courses := [courseArch]
    course_sections := [secA1, secA2]
    course_items := [itemA1] }

/-- C2 counterexample: on an item of an archived course, an item move, an item
duplicate and an item visibility-change all succeed and mutate the store — they
are not rejected with the archived state-conflict the claim requires. -/
theorem C2_archived_lock_cex :
    courseArch.status = "archived" ∧
    move_item dbArch "iA1" "sA2" 0 uAdmin =
      .ok { dbArch with course_items := [{ itemA1 with section_id := "sA2" }] } ∧
    duplicate_item dbArch "iA1" none uAdmin "iA2" =
      .ok { dbArch with course_items :=
        [itemA1, { itemA1 with id := "iA2", title := "IA1 (Copia)", position := 1 }] } ∧
    toggle_item_visibility dbArch "iA1" false uAdmin =
      .ok { dbArch with course_items := [{ itemA1 with visible := false }] } := by
  decide

/-- C2 witness: the rejection half of the amended claim at the archived
fixture: all seven guarded operations answer the archived state-conflict. -/
theorem C2_archived_lock_witness :
    courseArch.status = "archived" ∧
    dbArch.courses.find? (fun x => x.id = "cA") = some courseArch ∧
    dbArch.course_sections.find? (fun x => x.id = "sA1") = some secA1 ∧
    dbArch.course_items.find? (fun x => x.id = "iA1") = some itemA1 ∧
    create_section dbArch "cA" { title := "T", course_id := "cA" } uAdmin =
      .error (.badRequest archivedMsg) ∧
    update_section dbArch "cA" "sA1" {} uAdmin = .error (.badRequest archivedMsg) ∧
    delete_section dbArch "cA" "sA1" true uAdmin = .error (.badRequest archivedMsg) ∧
    move_section dbArch "cA" "sA1" 1 uAdmin = .error (.badRequest archivedMsg) ∧
    create_item dbArch "sA1" { title := "I", item_type := "page" } uAdmin =
      .error (.badRequest archivedMsg) ∧
    update_item dbArch "iA1" {} uAdmin = .error (.badRequest archivedMsg) ∧
    delete_item dbArch "iA1" uAdmin = .error (.badRequest archivedMsg) := by
  refine ⟨by decide, by decide, by decide, by decide, ?_, ?_, ?_, ?_, ?_, ?_, ?_⟩
  · exact C2_archived_lock.1 dbArch "cA" _ uAdmin courseArch (by decide) (by decide) (by decide)
  · exact C2_archived_lock.2.1 dbArch "cA" "sA1" _ uAdmin courseArch (by decide) (by decide)
      (by decide)
  · exact C2_archived_lock.2.2.1 dbArch "cA" "sA1" true uAdmin courseArch (by decide) (by decide)
      (by decide)
  · exact C2_archived_lock.2.2.2.1 dbArch "cA" "sA1" 1 uAdmin courseArch (by decide) (by decide)
      (by decide)
  · exact C2_archived_lock.2.2.2.2.1 dbArch "sA1" _ uAdmin secA1 courseArch (by decide)
      (by decide) (by decide) (by decide)
  · exact C2_archived_lock.2.2.2.2.2.1 dbArch "iA1" _ uAdmin itemA1 courseArch (by decide)
      (by decide) (by decide) (by decide)
  · exact C2_archived_lock.2.2.2.2.2.2.1 dbArch "iA1" uAdmin itemA1 courseArch (by decide)
      (by decide) (by decide) (by decide)

theorem check_course_access_ok_nonstudent (db : DB) (cid : String) (u : CurrentUser) (c : Course)
    (hc : db.courses.find? (fun x => x.id = cid) = some c) (ha : c.status ≠ "archived")
    (hns : u.role ≠ "student") :
    check_course_access db cid u true = .ok c := by
  simp [check_course_access, hc, ha, hns]

theorem check_section_access_ok (db : DB) (sid : String) (u : CurrentUser)
    (sec : CourseSection) (c : Course)
    (hs : db.course_sections.find? (fun x => x.id = sid) = some sec)
    (hc : db.courses.find? (fun x => x.id = sec.course_id) = some c)
    (ha : c.status ≠ "archived") :
    check_section_access db sid u true = .ok (sec, c) := by
  simp [check_section_access, hs, hc, ha]

/-- C3 (code bug): for every create of a section or item that passes the role
gate and the archived check, the route never stores anything: the pydantic
constructor call repeats the `course_id`/`position` (resp.
`section_id`/`position`) keywords already present in `model_dump()` and every
create dies with a `TypeError` (HTTP 500), instead of storing the appended or
explicit position the claim describes. -/
theorem C3_create_position :
    (∀ (db : DB) (cid : String) (data : CourseSectionCreate) (u : CurrentUser) (c : Course),
      u.role ∈ ["admin", "teacher", "editor"] →
      db.courses.find? (fun x => x.id = cid) = some c → c.status ≠ "archived" →
      create_section db cid data u =
        .error (.internal "TypeError: CourseSection() got multiple values for keyword argument")) ∧
    (∀ (db : DB) (sid : String) (data : CourseItemCreate) (u : CurrentUser)
        (sec : CourseSection) (c : Course),
      u.role ∈ ["admin", "teacher", "editor"] →
      db.course_sections.find? (fun x => x.id = sid) = some sec →
      db.courses.find? (fun x => x.id = sec.course_id) = some c → c.status ≠ "archived" →
      create_item db sid data u =
        .error (.internal "TypeError: CourseItem() got multiple values for keyword argument")) := by
  constructor
  · intro db cid data u c hrole hc ha
    have hrr : require_roles ["admin", "teacher", "editor"] u = .ok () := by
      simp [require_roles, hrole]
    have hns : u.role ≠ "student" := by
      intro h
      rw [h] at hrole
      exact absurd hrole (by decide)
    simp only [create_section, hrr, ok_bind,
      check_course_access_ok_nonstudent db cid u c hc ha hns]
  · intro db sid data u sec c hrole hs hc ha
    have hrr : require_roles ["admin", "teacher", "editor"] u = .ok () := by
      simp [require_roles, hrole]
    simp only [create_item, hrr, ok_bind, check_section_access_ok db sid u sec c hs hc ha]

/-- C3 witness: concrete creates (with and without an explicit position) on a
live draft course all surface the duplicate-keyword `TypeError`. -/
theorem C3_create_position_witness :
    (uAdmin.role ∈ ["admin", "teacher", "editor"]) ∧
    dbP2.courses.find? (fun x => x.id = "c1") = some courseC1 ∧
    courseC1.status ≠ "archived" ∧
    create_section dbP2 "c1" { title := "T6", course_id := "c1" } uAdmin =
      .error (.internal "TypeError: CourseSection() got multiple values for keyword argument") ∧
    create_section dbP2 "c1" { title := "T7", position := 3, course_id := "c1" } uAdmin =
      .error (.internal "TypeError: CourseSection() got multiple values for keyword argument") ∧
    create_item dbP3 "sA" { title := "I", item_type := "page" } uAdmin =
      .error (.internal "TypeError: CourseItem() got multiple values for keyword argument") :=
  ⟨by decide, by decide, by decide,
   C3_create_position.1 dbP2 "c1" _ uAdmin courseC1 (by decide) (by decide) (by decide),
   C3_create_position.1 dbP2 "c1" _ uAdmin courseC1 (by decide) (by decide) (by decide),
   C3_create_position.2 dbP3 "sA" _ uAdmin (mkSec "sA" 0) courseC1 (by decide) (by decide)
     (by decide) (by decide)⟩

/-- A draft course with no sections yet (the claim's starting state for the
density property). -/
def dbC5 : DB := { emptyDB with courses := [courseC1] }

/-- C5 (code bug): starting from an empty set of sections, the very first
section create of any create/move sequence dies with the duplicate-keyword
`TypeError` and stores nothing, so the course can never reach the one-section
state with positions `{0}` the claim requires after one create; no sequence of
creates ever populates a course. -/
theorem C5_density_sequence :
    dbC5.course_sections.map (fun s => s.position) = [] ∧
    create_section dbC5 "c1" { title := "Tema 1", course_id := "c1" } uAdmin =
      .error (.internal "TypeError: CourseSection() got multiple values for keyword argument") := by
  decide

/-- C8 (amended): while a course is archived, no PATCH course update succeeds
at all — the archived check precedes everything and has no exemption for
status-changing payloads, so un-archiving via PATCH is impossible; on the
other hand the bulk course actions apply their `$set` to every listed course
with no status check, so both status-changing (suspend) and
non-status-changing (hide) bulk writes do mutate archived courses. -/
theorem C8_archived_writes :
    (∀ (db : DB) (cid : String) (upd : CourseUpdate) (u : CurrentUser) (c : Course),
      u.role ∈ ["admin", "teacher", "editor"] →
      db.courses.find? (fun x => x.id = cid) = some c → c.status = "archived" →
      update_course db cid upd u = .error (.badRequest archivedMsg)) ∧
    (∀ (db : DB) (ids : List String) (u : CurrentUser),
      u.role ∈ ["admin", "teacher"] →
      bulk_course_action db ids "suspend" u =
        .ok { db with courses := db.courses.map (fun c =>
          if c.id ∈ ids then { c with status := "suspended" } else c) }) ∧
    (∀ (db : DB) (ids : List String) (u : CurrentUser),
      u.role ∈ ["admin", "teacher"] →
      bulk_course_action db ids "hide" u =
        .ok { db with courses := db.courses.map (fun c =>
          if c.id ∈ ids then { c with visible := false } else c) }) := by
  refine ⟨?_, ?_, ?_⟩
  · intro db cid upd u c hrole hc ha
    have hrr : require_roles ["admin", "teacher", "editor"] u = .ok () := by
      simp [require_roles, hrole]
    simp only [update_course, hrr, ok_bind, hc]
    rw [if_pos ha]
  · intro db ids u hrole
    have hrr : require_roles ["admin", "teacher"] u = .ok () := by
      simp [require_roles, hrole]
    simp only [bulk_course_action, hrr, ok_bind]
    rw [if_neg (by simp), if_neg (by decide), if_neg (by decide), if_pos trivial, pure_eq_ok]
  · intro db ids u hrole
    have hrr : require_roles ["admin", "teacher"] u = .ok () := by
      simp [require_roles, hrole]
    simp only [bulk_course_action, hrr, ok_bind]
    rw [if_neg (by simp), if_pos trivial, pure_eq_ok]

/-- C8 counterexample: on an archived course the explicit status-changing
PATCH the claim permits is in fact rejected, while a visibility-only bulk
write and a status bulk write — writes the claim says must not succeed, or
not be the only ones — both succeed and mutate the archived course. -/
theorem C8_archived_writes_cex :
    courseArch.status = "archived" ∧
    update_course dbArch "cA" { status := some "published" } uAdmin =
      .error (.badRequest archivedMsg) ∧
    bulk_course_action dbArch ["cA"] "hide" uAdmin =
      .ok { dbArch with courses := [{ courseArch with visible := false }] } ∧
    bulk_course_action dbArch ["cA"] "suspend" uAdmin =
      .ok { dbArch with courses := [{ courseArch with status := "suspended" }] } := by
  decide

/-- C8 witness: the amended claim at the archived fixture. -/
theorem C8_archived_writes_witness :
    (uAdmin.role ∈ ["admin", "teacher", "editor"]) ∧
    dbArch.courses.find? (fun x => x.id = "cA") = some courseArch ∧
    courseArch.status = "archived" ∧
    update_course dbArch "cA" {} uAdmin = .error (.badRequest archivedMsg) ∧
    bulk_course_action dbArch ["cA"] "suspend" uAdmin =
      .ok { dbArch with courses := dbArch.courses.map (fun c =>
        if c.id ∈ ["cA"] then { c with status := "suspended" } else c) } :=
  ⟨by decide, by decide, by decide,
   C8_archived_writes.1 dbArch "cA" {} uAdmin courseArch (by decide) (by decide) (by decide),
   C8_archived_writes.2.1 dbArch ["cA"] uAdmin (by decide)⟩

/-- The success path of `update_course` for a teacher: course found, not
archived, creator-or-teacher-enrolled, no shortname change. -/
theorem update_course_gate_ok (db : DB) (cid : String) (upd : CourseUpdate) (u : CurrentUser)
    (c : Course) (hrole : u.role = "teacher")
    (hc : db.courses.find? (fun x => x.id = cid) = some c)
    (ha : c.status ≠ "archived")
    (hallow : c.created_by = some u.user_id ∨
      (db.enrollments.find? (fun e =>
        e.course_id = cid ∧ e.user_id = u.user_id ∧ e.role = "teacher")).isSome)
    (hsn : upd.shortname = none) :
    ∃ db2, update_course db cid upd u = .ok db2 := by
  have hrr : require_roles ["admin", "teacher", "editor"] u = .ok () := by
    simp [require_roles, hrole]
  simp only [update_course, hrr, ok_bind, hc]
  rw [if_neg ha]
  rcases hallow with hcb | hsome
  · rw [if_neg (fun hco => hco.2 hcb)]
    simp only [ok_bind, hsn, map_ok]
    exact ⟨_, rfl⟩
  · obtain ⟨en, hen⟩ := Option.isSome_iff_exists.mp hsome
    by_cases hcb : c.created_by = some u.user_id
    · rw [if_neg (fun hco => hco.2 hcb)]
      simp only [ok_bind, hsn, map_ok]
      exact ⟨_, rfl⟩
    · rw [if_pos ⟨hrole, hcb⟩, hen]
      simp only [Option.isNone_some, Bool.false_eq_true, if_false, ok_bind, hsn, map_ok]
      exact ⟨_, rfl⟩

/-- C9 (amended): for a course that is not archived, a teacher who is neither
the creator nor enrolled with `role="teacher"` is rejected with the Forbidden
ownership error, and the same teacher once creator or so enrolled passes the
gate and the update succeeds.  (On an archived course both teachers are
instead rejected earlier with the archived state-conflict.) -/
theorem C9_teacher_gate (db : DB) (cid : String) (upd : CourseUpdate) (u : CurrentUser)
    (c : Course) (hrole : u.role = "teacher")
    (hc : db.courses.find? (fun x => x.id = cid) = some c)
    (ha : c.status ≠ "archived") :
    ((c.created_by ≠ some u.user_id ∧
      db.enrollments.find? (fun e =>
        e.course_id = cid ∧ e.user_id = u.user_id ∧ e.role = "teacher") = none) →
      update_course db cid upd u =
        .error (.forbidden "No tienes permisos para editar este curso")) ∧
    ((c.created_by = some u.user_id ∨
      (db.enrollments.find? (fun e =>
        e.course_id = cid ∧ e.user_id = u.user_id ∧ e.role = "teacher")).isSome) →
      upd.shortname = none →
      ∃ db2, update_course db cid upd u = .ok db2) := by
  have hrr : require_roles ["admin", "teacher", "editor"] u = .ok () := by
    simp [require_roles, hrole]
  constructor
  · intro hdeny
    simp only [update_course, hrr, ok_bind, hc]
    rw [if_neg ha, if_pos ⟨hrole, hdeny.1⟩, hdeny.2]
    simp [error_bind]
  · intro hallow hsn
    exact update_course_gate_ok db cid upd u c hrole hc ha hallow hsn

/-- The teacher used in the ownership-gate scenarios, not the creator of any
fixture course. -/
def tOther : CurrentUser := { user_id := "t2", role := "teacher" }

/-- C9 counterexample: the claim quantifies over every course, but on an
archived course the outsider teacher is rejected with the archived
state-conflict, not with Forbidden, and the creator teacher (whom the claim
permits) is rejected as well. -/
theorem C9_teacher_gate_cex :
    courseArch.status = "archived" ∧
    courseArch.created_by ≠ some tOther.user_id ∧
    dbArch.enrollments = [] ∧
    update_course dbArch "cA" { fullname := some "X" } tOther =
      .error (.badRequest archivedMsg) ∧
    update_course dbArch "cA" { fullname := some "X" } tOther ≠
      .error (.forbidden "No tienes permisos para editar este curso") ∧
    update_course dbArch "cA" { fullname := some "X" }
      { user_id := "t-owner", role := "teacher" } = .error (.badRequest archivedMsg) := by
  decide

/-- A published course created by `t-owner`, used by the gate witnesses. -/
def courseC9 : Course :=
  { id := "c9", shortname := "cs9", fullname := "Curso 9", status := "published",
    visible := true, created_by := some "t-owner" }

/-- The gate fixture without any enrollment for `t2`. -/
def dbC9a : DB := { emptyDB with courses := [courseC9] }

/-- An active teacher-role enrollment of `t2` in `c9`. -/
def enC9 : Enrollment :=
  { id := "e9", course_id := "c9", user_id := "t2", role := "teacher", status := "active" }

/-- The gate fixture after enrolling `t2` as teacher. -/
def dbC9b : DB := { emptyDB with courses := [courseC9], enrollments := [enC9] }

/-- C9 witness: on the published course, the outsider teacher is Forbidden,
and succeeds once enrolled with `role="teacher"`; the creator succeeds too. -/
theorem C9_teacher_gate_witness :
    (tOther.role = "teacher") ∧
    dbC9a.courses.find? (fun x => x.id = "c9") = some courseC9 ∧
    courseC9.status ≠ "archived" ∧
    update_course dbC9a "c9" { fullname := some "X" } tOther =
      .error (.forbidden "No tienes permisos para editar este curso") ∧
    (∃ db2, update_course dbC9b "c9" { fullname := some "X" } tOther = .ok db2) ∧
    (∃ db2, update_course dbC9a "c9" { fullname := some "X" }
      { user_id := "t-owner", role := "teacher" } = .ok db2) :=
  ⟨by decide, by decide, by decide,
   (C9_teacher_gate dbC9a "c9" _ tOther courseC9 (by decide) (by decide) (by decide)).1
     ⟨by decide, by decide⟩,
   (C9_teacher_gate dbC9b "c9" _ tOther courseC9 (by decide) (by decide) (by decide)).2
     (Or.inr (by decide)) (by decide),
   (C9_teacher_gate dbC9a "c9" _ { user_id := "t-owner", role := "teacher" } courseC9
     (by decide) (by decide) (by decide)).2 (Or.inl (by decide)) (by decide)⟩

/-- C10: the ownership gate's enrollment query filters only on course, user
and `role="teacher"` — not on the enrollment's status — so a teacher whose
teacher enrollment is suspended or ended still passes the gate: the update
succeeds on a non-archived course, and no input with such an enrollment is
ever rejected with a Forbidden error. -/
theorem C10_gate_ignores_enrollment_status :
    (∀ (db : DB) (cid : String) (upd : CourseUpdate) (u : CurrentUser)
        (c : Course) (en : Enrollment),
      u.role = "teacher" →
      db.courses.find? (fun x => x.id = cid) = some c →
      c.status ≠ "archived" →
      db.enrollments.find? (fun e =>
        e.course_id = cid ∧ e.user_id = u.user_id ∧ e.role = "teacher") = some en →
      (en.status = "suspended" ∨ en.status = "ended") →
      upd.shortname = none →
      ∃ db2, update_course db cid upd u = .ok db2) ∧
    (∀ (db : DB) (cid : String) (upd : CourseUpdate) (u : CurrentUser)
        (en : Enrollment) (d : String),
      u.role = "teacher" →
      db.enrollments.find? (fun e =>
        e.course_id = cid ∧ e.user_id = u.user_id ∧ e.role = "teacher") = some en →
      update_course db cid upd u ≠ .error (.forbidden d)) := by
  constructor
  · intro db cid upd u c en hrole hc ha hen _hstatus hsn
    exact update_course_gate_ok db cid upd u c hrole hc ha (Or.inr (by rw [hen]; rfl)) hsn
  · intro db cid upd u en d hrole hen
    have hrr : require_roles ["admin", "teacher", "editor"] u = .ok () := by
      simp [require_roles, hrole]
    simp only [update_course, hrr, ok_bind]
    rcases hc : db.courses.find? (fun x => x.id = cid) with _ | c <;> simp only [hc]
    · simp
    · split_ifs with h1 h2 h3
      · simp
      · rw [hen] at h3
        simp at h3
      · rcases hsn : upd.shortname with _ | s
        · simp [hsn, ok_bind, map_ok]
        · simp only [hsn, ok_bind]
          split_ifs <;> simp [map_ok, map_error]
      · rcases hsn : upd.shortname with _ | s
        · simp [hsn, ok_bind, map_ok]
        · simp only [hsn, ok_bind]
          split_ifs <;> simp [map_ok, map_error]

/-- A suspended teacher-role enrollment of `t2` in `c9`. -/
def enC10 : Enrollment :=
  { id := "e10", course_id := "c9", user_id := "t2", role := "teacher", status := "suspended" }

/-- Gate fixture where `t2`'s teacher enrollment is suspended. -/
def dbC10 : DB := { emptyDB with courses := [courseC9], enrollments := [enC10] }

/-- C10 witness: the suspended-enrollment teacher's edit succeeds. -/
theorem C10_gate_ignores_enrollment_status_witness :
    (tOther.role = "teacher") ∧
    dbC10.courses.find? (fun x => x.id = "c9") = some courseC9 ∧
    courseC9.status ≠ "archived" ∧
    dbC10.enrollments.find? (fun e =>
      e.course_id = "c9" ∧ e.user_id = tOther.user_id ∧ e.role = "teacher") = some enC10 ∧
    enC10.status = "suspended" ∧
    (∃ db2, update_course dbC10 "c9" { fullname := some "Y" } tOther = .ok db2) ∧
    update_course dbC10 "c9" { fullname := some "Y" } tOther ≠
      .error (.forbidden "No tienes permisos para editar este curso") :=
  ⟨by decide, by decide, by decide, by decide, by decide,
   C10_gate_ignores_enrollment_status.1 dbC10 "c9" _ tOther courseC9 enC10 (by decide)
     (by decide) (by decide) (by decide) (Or.inl (by decide)) (by decide),
   C10_gate_ignores_enrollment_status.2 dbC10 "c9" _ tOther enC10 _ (by decide) (by decide)⟩

/-- Claim-side counting for bulk enroll: walking the id list in order, an id
whose user does not exist or who is already enrolled (including ids enrolled
earlier in the same batch) counts as skipped, every other id is enrolled and
added to the enrolled set. -/
def specBulkCounts (users : List String) : List String → List String → Nat × Nat
  | _already, [] => (0, 0)
  | already, uid :: rest =>
    if uid ∈ users ∧ uid ∉ already then
      let r := specBulkCounts users (uid :: already) rest
      (r.1 + 1, r.2)
    else
      let r := specBulkCounts users already rest
      (r.1, r.2 + 1)

theorem specBulkCounts_fst_mem (users already : List String) (uid : String)
    (rest : List String) (h : uid ∈ users ∧ uid ∉ already) :
    (specBulkCounts users already (uid :: rest)).1 =
      (specBulkCounts users (uid :: already) rest).1 + 1 := by
  simp only [specBulkCounts, if_pos h]

theorem specBulkCounts_snd_mem (users already : List String) (uid : String)
    (rest : List String) (h : uid ∈ users ∧ uid ∉ already) :
    (specBulkCounts users already (uid :: rest)).2 =
      (specBulkCounts users (uid :: already) rest).2 := by
  simp only [specBulkCounts, if_pos h]

theorem specBulkCounts_fst_skip (users already : List String) (uid : String)
    (rest : List String) (h : ¬(uid ∈ users ∧ uid ∉ already)) :
    (specBulkCounts users already (uid :: rest)).1 =
      (specBulkCounts users already rest).1 := by
  simp only [specBulkCounts, if_neg h]

theorem specBulkCounts_snd_skip (users already : List String) (uid : String)
    (rest : List String) (h : ¬(uid ∈ users ∧ uid ∉ already)) :
    (specBulkCounts users already (uid :: rest)).2 =
      (specBulkCounts users already rest).2 + 1 := by
  simp only [specBulkCounts, if_neg h]

theorem specBulkCounts_sum (users : List String) :
    ∀ (ids already : List String),
      (specBulkCounts users already ids).1 + (specBulkCounts users already ids).2 =
        ids.length := by
  intro ids
  induction ids with
  | nil => intro _; rfl
  | cons uid rest ih =>
    intro already
    by_cases h : uid ∈ users ∧ uid ∉ already
    · rw [specBulkCounts_fst_mem users already uid rest h,
        specBulkCounts_snd_mem users already uid rest h]
      have := ih (uid :: already)
      simp only [List.length_cons]
      omega
    · rw [specBulkCounts_fst_skip users already uid rest h,
        specBulkCounts_snd_skip users already uid rest h]
      have := ih already
      simp only [List.length_cons]
      omega

theorem bulk_enroll_loop_spec (uuid : Nat → String) (cid role : String) :
    ∀ (ids : List String) (db : DB) (k e s : Nat) (already : List String),
      (∀ uid, uid ∈ already ↔
        ∃ en ∈ db.enrollments, en.course_id = cid ∧ en.user_id = uid) →
      ∃ db2, bulk_enroll_loop uuid cid role db ids k e s =
        (db2, e + (specBulkCounts (db.users.map (fun x => x.id)) already ids).1,
              s + (specBulkCounts (db.users.map (fun x => x.id)) already ids).2) := by
  intro ids
  induction ids with
  | nil =>
    intro db k e s already _
    exact ⟨db, by simp [bulk_enroll_loop, specBulkCounts]⟩
  | cons uid rest ih =>
    intro db k e s already hinv
    rcases hu : db.users.find? (fun usr => usr.id = uid) with _ | usr
    · have hnomem : uid ∉ db.users.map (fun x => x.id) := by
        intro hm
        obtain ⟨x, hx, hxid⟩ := List.mem_map.mp hm
        have hnone := List.find?_eq_none.mp hu x hx
        simp [hxid] at hnone
      obtain ⟨db2, h2⟩ := ih db k e (s + 1) already hinv
      refine ⟨db2, ?_⟩
      rw [bulk_enroll_loop, hu]
      simp only [Option.isNone_none, if_true, h2]
      rw [specBulkCounts_fst_skip _ _ _ _ (fun hmem => hnomem hmem.1),
        specBulkCounts_snd_skip _ _ _ _ (fun hmem => hnomem hmem.1)]
      congr 1
      congr 1
      omega
    · have hmem : uid ∈ db.users.map (fun x => x.id) := by
        have hp := List.find?_some hu
        simp only [decide_eq_true_eq] at hp
        exact List.mem_map.mpr ⟨usr, List.mem_of_find?_eq_some hu, hp⟩
      rcases he : db.enrollments.find? (fun e2 => e2.course_id = cid ∧ e2.user_id = uid)
        with _ | en
      · have hnal : uid ∉ already := by
          intro hal
          obtain ⟨en, hen, hc2, hu2⟩ := (hinv uid).mp hal
          have hnone := List.find?_eq_none.mp he en hen
          simp [hc2, hu2] at hnone
        have hinv2 : ∀ uid2, uid2 ∈ uid :: already ↔
            ∃ en ∈ ({ db with enrollments :=
              db.enrollments ++ [mkEnrollment (uuid k) cid uid role] } : DB).enrollments,
              en.course_id = cid ∧ en.user_id = uid2 := by
          intro uid2
          constructor
          · intro hm
            rcases List.mem_cons.mp hm with hm1 | hm2
            · exact ⟨mkEnrollment (uuid k) cid uid role,
                List.mem_append.mpr (Or.inr (by simp)), rfl, hm1.symm ▸ rfl⟩
            · obtain ⟨en, hen, hc2, hu2⟩ := (hinv uid2).mp hm2
              exact ⟨en, List.mem_append.mpr (Or.inl hen), hc2, hu2⟩
          · rintro ⟨en, hen, hc2, hu2⟩
            rcases List.mem_append.mp hen with hen1 | hen2
            · exact List.mem_cons.mpr (Or.inr ((hinv uid2).mpr ⟨en, hen1, hc2, hu2⟩))
            · have : en = mkEnrollment (uuid k) cid uid role := by simpa using hen2
              subst this
              exact List.mem_cons.mpr (Or.inl hu2.symm)
        obtain ⟨db2, h2⟩ := ih
          { db with enrollments := db.enrollments ++ [mkEnrollment (uuid k) cid uid role] }
          (k + 1) (e + 1) s (uid :: already) hinv2
        refine ⟨db2, ?_⟩
        rw [bulk_enroll_loop, hu]
        simp only [Option.isNone_some, Bool.false_eq_true, if_false, he,
          Option.isSome_none, h2]
        rw [specBulkCounts_fst_mem _ _ _ _ ⟨hmem, hnal⟩,
          specBulkCounts_snd_mem _ _ _ _ ⟨hmem, hnal⟩]
        congr 1
        congr 1
        omega
      · have hal : uid ∈ already := by
          refine (hinv uid).mpr ⟨en, List.mem_of_find?_eq_some he, ?_⟩
          have hp := List.find?_some he
          simp only [decide_eq_true_eq] at hp
          exact hp
        obtain ⟨db2, h2⟩ := ih db k e (s + 1) already hinv
        refine ⟨db2, ?_⟩
        rw [bulk_enroll_loop, hu]
        simp only [Option.isNone_some, Bool.false_eq_true, if_false, he,
          Option.isSome_some, if_true, h2]
        rw [specBulkCounts_fst_skip _ _ _ _ (fun hmem2 => hmem2.2 hal),
          specBulkCounts_snd_skip _ _ _ _ (fun hmem2 => hmem2.2 hal)]
        congr 1
        congr 1
        omega

/-- C7: bulk enrollment of a list of user ids against an existing course never
fails as a whole; every id is classified in order — skipped when its user does
not exist or it is already enrolled (including by an earlier id of the same
batch), enrolled otherwise — and the reported counts are exactly this
classification, with enrolled + skipped = length of the list. -/
theorem C7_bulk_enroll (db : DB) (cid : String) (ids : List String) (role : String)
    (u : CurrentUser) (uuid : Nat → String) (c : Course)
    (hrole : u.role ∈ ["admin", "teacher"])
    (hc : db.courses.find? (fun x => x.id = cid) = some c) :
    ∃ db2, bulk_enroll db cid ids role u uuid =
      .ok (db2,
        (specBulkCounts (db.users.map (fun x => x.id))
          ((db.enrollments.filter (fun e => e.course_id = cid)).map (fun e => e.user_id))
          ids).1,
        (specBulkCounts (db.users.map (fun x => x.id))
          ((db.enrollments.filter (fun e => e.course_id = cid)).map (fun e => e.user_id))
          ids).2) ∧
      (specBulkCounts (db.users.map (fun x => x.id))
        ((db.enrollments.filter (fun e => e.course_id = cid)).map (fun e => e.user_id))
        ids).1 +
      (specBulkCounts (db.users.map (fun x => x.id))
        ((db.enrollments.filter (fun e => e.course_id = cid)).map (fun e => e.user_id))
        ids).2 = ids.length := by
  have hrr : require_roles ["admin", "teacher"] u = .ok () := by
    simp [require_roles, hrole]
  have hinv : ∀ uid, uid ∈
      (db.enrollments.filter (fun e => e.course_id = cid)).map (fun e => e.user_id) ↔
      ∃ en ∈ db.enrollments, en.course_id = cid ∧ en.user_id = uid := by
    intro uid
    constructor
    · intro h
      obtain ⟨en, hen, hu⟩ := List.mem_map.mp h
      have hf := List.mem_filter.mp hen
      refine ⟨en, hf.1, ?_, hu⟩
      simpa using hf.2
    · rintro ⟨en, hen, hc2, hu2⟩
      exact List.mem_map.mpr ⟨en, List.mem_filter.mpr ⟨hen, by simp [hc2]⟩, hu2⟩
  obtain ⟨db2, hloop⟩ := bulk_enroll_loop_spec uuid cid role ids db 0 0 0 _ hinv
  refine ⟨db2, ?_, specBulkCounts_sum _ _ _⟩
  simp only [bulk_enroll, hrr, ok_bind, hc, pure_eq_ok, hloop, Nat.zero_add]

/-- A user that exists and is not yet enrolled. -/
def userU1 : UserRec := { id := "u1", role := "student" }

/-- A user that exists and is already enrolled in `c9`. -/
def userU3 : UserRec := { id := "u3", role := "student" }

/-- The pre-existing enrollment of `u3` in `c9`. -/
def enU3 : Enrollment :=
  { id := "e3", course_id := "c9", user_id := "u3", role := "student", status := "active" }

/-- The P8 fixture: course `c9`, users `u1` and `u3`, `u3` already enrolled;
`u2` does not exist. -/
def dbC7 : DB :=
  { emptyDB with courses := [courseC9], users := [userU1, userU3], enrollments := [enU3] }

/-- C7 witness: bulk-enrolling `["u1", "u2", "u3"]` (one fresh, one missing,
one already enrolled) reports enrolled = 1 and skipped = 2. -/
theorem C7_bulk_enroll_witness :
    (uAdmin.role ∈ ["admin", "teacher"]) ∧
    dbC7.courses.find? (fun x => x.id = "c9") = some courseC9 ∧
    (specBulkCounts (dbC7.users.map (fun x => x.id))
      ((dbC7.enrollments.filter (fun e => e.course_id = "c9")).map (fun e => e.user_id))
      ["u1", "u2", "u3"]) = (1, 2) ∧
    (∃ db2, bulk_enroll dbC7 "c9" ["u1", "u2", "u3"] "student" uAdmin (fun _ => "nid") =
      .ok (db2,
        (specBulkCounts (dbC7.users.map (fun x => x.id))
          ((dbC7.enrollments.filter (fun e => e.course_id = "c9")).map (fun e => e.user_id))
          ["u1", "u2", "u3"]).1,
        (specBulkCounts (dbC7.users.map (fun x => x.id))
          ((dbC7.enrollments.filter (fun e => e.course_id = "c9")).map (fun e => e.user_id))
          ["u1", "u2", "u3"]).2) ∧
      (specBulkCounts (dbC7.users.map (fun x => x.id))
        ((dbC7.enrollments.filter (fun e => e.course_id = "c9")).map (fun e => e.user_id))
        ["u1", "u2", "u3"]).1 +
      (specBulkCounts (dbC7.users.map (fun x => x.id))
        ((dbC7.enrollments.filter (fun e => e.course_id = "c9")).map (fun e => e.user_id))
        ["u1", "u2", "u3"]).2 = (["u1", "u2", "u3"] : List String).length) :=
  ⟨by decide, by decide, by decide,
   C7_bulk_enroll dbC7 "c9" ["u1", "u2", "u3"] "student" uAdmin (fun _ => "nid") courseC9
     (by decide) (by decide)⟩

/-- Claim-side correctness of one submitted answer: a multiple-choice question
is correct exactly when the submitted option id equals the id of an option
flagged correct, a true/false question exactly when the stringified answer
case-insensitively equals the stored correct answer. -/
def claimCorrect (q : Question) (ans : Option PyVal) : Bool :=
  (q.qtype = "multiple_choice" ∧ q.options.any (fun o => o.correct ∧ ans = some (.str o.id))) ∨
  (q.qtype = "true_false" ∧ lowerStr (pyStrOpt ans) = lowerStr (pyStr q.correct_answer))

/-- Claim-side sum of all question points. -/
def claimTotal (qs : List Question) : Int := (qs.map questionPoints).sum

/-- Claim-side sum of the points of correctly-answered questions. -/
def claimEarned (qs : List Question) (answers : List (String × PyVal)) : Int :=
  ((qs.filter (fun q => claimCorrect q (answers.lookup q.id))).map questionPoints).sum

theorem earnedPointsLoop_eq (answers : List (String × PyVal)) :
    ∀ (qs : List Question) (acc : Int),
      earnedPointsLoop answers qs acc =
        acc + ((qs.filter
          (fun q => gradeQuestion q (answers.lookup q.id))).map questionPoints).sum := by
  intro qs
  induction qs with
  | nil => intro acc; simp [earnedPointsLoop]
  | cons q rest ih =>
    intro acc
    by_cases hg : gradeQuestion q (answers.lookup q.id)
    · rw [earnedPointsLoop, if_pos hg, ih, List.filter_cons_of_pos (by simp [hg])]
      simp only [List.map_cons, List.sum_cons]
      omega
    · rw [earnedPointsLoop, if_neg hg, ih,
        List.filter_cons_of_neg (by simp [hg])]

theorem mem_of_length_le_one {α : Type} (l : List α) (h : l.length ≤ 1) (a b : α)
    (ha : a ∈ l) (hb : b ∈ l) : a = b := by
  rcases l with _ | ⟨x, _ | ⟨y, t⟩⟩
  · simp at ha
  · simp at ha hb
    rw [ha, hb]
  · simp [List.length_cons] at h

theorem find_correct_eq_any (ans : Option PyVal) (l : List QOption)
    (hlen : (l.filter (fun o => o.correct)).length ≤ 1) :
    (match l.find? (fun o => o.correct) with
      | some c => (ans = some (.str c.id) : Bool)
      | none => false) = l.any (fun o => o.correct ∧ ans = some (.str o.id)) := by
  rcases hf : l.find? (fun o => o.correct) with _ | c
  · simp only [hf]
    have hall := List.find?_eq_none.mp hf
    have hany : l.any (fun o => o.correct ∧ ans = some (.str o.id)) = false := by
      rw [List.any_eq_false]
      intro o ho
      have := hall o ho
      simp_all
    rw [hany]
  · simp only [hf]
    have hc1 : c.correct = true := by
      have := List.find?_some hf
      simpa using this
    have hcm : c ∈ l := List.mem_of_find?_eq_some hf
    by_cases hans : ans = some (.str c.id)
    · have hany : l.any (fun o => o.correct ∧ ans = some (.str o.id)) = true := by
        rw [List.any_eq_true]
        exact ⟨c, hcm, by simp [hc1, hans]⟩
      rw [hany]
      simp [hans]
    · have hany : l.any (fun o => o.correct ∧ ans = some (.str o.id)) = false := by
        rw [List.any_eq_false]
        intro o ho
        simp only [decide_eq_true_eq, not_and]
        intro hoc hoa
        have heq : o = c := mem_of_length_le_one _ hlen o c
          (List.mem_filter.mpr ⟨ho, by simpa using hoc⟩)
          (List.mem_filter.mpr ⟨hcm, by simpa using hc1⟩)
        exact hans (heq ▸ hoa)
      rw [hany]
      simp [hans]

theorem gradeQuestion_eq_claimCorrect (q : Question) (ans : Option PyVal)
    (h : (q.options.filter (fun o => o.correct)).length ≤ 1) :
    gradeQuestion q ans = claimCorrect q ans := by
  unfold gradeQuestion claimCorrect
  by_cases hmc : q.qtype = "multiple_choice"
  · rw [if_pos hmc, find_correct_eq_any ans q.options h]
    rw [Bool.eq_iff_iff]
    simp [hmc, List.any_eq_true]
  · by_cases htf : q.qtype = "true_false"
    · rw [if_neg hmc, if_pos htf]
      simp [hmc, htf]
    · rw [if_neg hmc, if_neg htf]
      simp [hmc, htf]

/-- C6: a quiz-attempt submission (attempt found, owned by the caller, still
in progress, quiz resolvable, questions with at most one option flagged
correct, positive total points) returns the score
`(points of correctly-answered questions / total points) × 100` rounded to
two decimals, with correctness per question exactly as the claim defines it,
together with those two sums. -/
theorem C6_quiz_scoring (db : DB) (aid : String) (answers : List (String × PyVal))
    (u : CurrentUser) (gid : String) (att : QuizAttempt) (quiz : Quiz)
    (hatt : db.quiz_attempts.find? (fun a => a.id = aid) = some att)
    (huser : att.user_id = u.user_id)
    (hstatus : att.status = "in_progress")
    (hquiz : db.quizzes.find? (fun qz => qz.id = att.quiz_id) = some quiz)
    (hone : ∀ q ∈ db.questions.filter (fun q => q.id ∈ quiz.question_ids),
      (q.options.filter (fun o => o.correct)).length ≤ 1)
    (htot : 0 < claimTotal (db.questions.filter (fun q => q.id ∈ quiz.question_ids))) :
    ∃ (db2 : DB) (passed : Bool),
      submit_quiz_attempt db aid answers u gid =
        .ok (db2,
          round2 ((claimEarned (db.questions.filter (fun q => q.id ∈ quiz.question_ids))
              answers : ℚ) /
            (claimTotal (db.questions.filter (fun q => q.id ∈ quiz.question_ids)) : ℚ) * 100),
          claimEarned (db.questions.filter (fun q => q.id ∈ quiz.question_ids)) answers,
          claimTotal (db.questions.filter (fun q => q.id ∈ quiz.question_ids)),
          passed) := by
  have hearned : earnedPointsLoop answers
      (db.questions.filter (fun q => q.id ∈ quiz.question_ids)) 0 =
      claimEarned (db.questions.filter (fun q => q.id ∈ quiz.question_ids)) answers := by
    rw [earnedPointsLoop_eq]
    have hfc : (db.questions.filter (fun q => q.id ∈ quiz.question_ids)).filter
        (fun q => gradeQuestion q (answers.lookup q.id)) =
        (db.questions.filter (fun q => q.id ∈ quiz.question_ids)).filter
        (fun q => claimCorrect q (answers.lookup q.id)) := by
      apply List.filter_congr
      intro q hq
      rw [gradeQuestion_eq_claimCorrect q _ (hone q hq)]
    rw [hfc, claimEarned]
    omega
  have htot2 : ((db.questions.filter
      (fun q => q.id ∈ quiz.question_ids)).map questionPoints).sum > 0 := htot
  simp only [submit_quiz_attempt, hatt]
  rw [if_neg (by simp [huser]), if_neg (by simp [hstatus])]
  simp only [hquiz]
  rw [if_pos htot2, hearned]
  exact ⟨_, _, rfl⟩

/-- The multiple-choice question of the P7 quiz (10 points, correct option
`"a"`). -/
def q1W : Question :=
  { id := "q1", qtype := "multiple_choice", points? := some 10,
    options := [{ id := "a", correct := true }, { id := "b", correct := false }],
    correct_answer := .str "" }

/-- The true/false question of the P7 quiz (5 points, stored correct answer
the Python boolean `True`). -/
def q2W : Question :=
  { id := "q2", qtype := "true_false", points? := some 5, options := [],
    correct_answer := .bool true }

/-- The P7 quiz over the two questions. -/
def quizW : Quiz :=
  { id := "qz", course_id := "c9", item_id := none, question_ids := ["q1", "q2"],
    passing_grade? := none }

/-- An in-progress attempt at the P7 quiz by student `stu`. -/
def attW : QuizAttempt :=
  { id := "at1", quiz_id := "qz", user_id := "stu", course_id := "c9",
    status := "in_progress", answers := [], score := none }

/-- The student submitting the P7 attempt. -/
def uStu : CurrentUser := { user_id := "stu", role := "student" }

/-- Store for the P7 scenario. -/
def dbQuiz : DB :=
  { emptyDB with quizzes := [quizW], questions := [q1W, q2W], quiz_attempts := [attW] }

/-- The P7 submission with only the first question answered correctly. -/
def ansW : List (String × PyVal) := [("q1", .str "a"), ("q2", .str "false")]

/-- C6 witness: with only the 10-point question of the 15-point quiz correct,
the returned score is 66.67. -/
theorem C6_quiz_scoring_witness :
    dbQuiz.quiz_attempts.find? (fun a => a.id = "at1") = some attW ∧
    attW.user_id = uStu.user_id ∧
    attW.status = "in_progress" ∧
    dbQuiz.quizzes.find? (fun qz => qz.id = attW.quiz_id) = some quizW ∧
    claimEarned (dbQuiz.questions.filter (fun q => q.id ∈ quizW.question_ids)) ansW = 10 ∧
    claimTotal (dbQuiz.questions.filter (fun q => q.id ∈ quizW.question_ids)) = 15 ∧
    round2 ((claimEarned (dbQuiz.questions.filter (fun q => q.id ∈ quizW.question_ids))
        ansW : ℚ) /
      (claimTotal (dbQuiz.questions.filter (fun q => q.id ∈ quizW.question_ids)) : ℚ) * 100) =
      6667 / 100 ∧
    (∃ (db2 : DB) (passed : Bool),
      submit_quiz_attempt dbQuiz "at1" ansW uStu "g1" =
        .ok (db2,
          round2 ((claimEarned (dbQuiz.questions.filter
              (fun q => q.id ∈ quizW.question_ids)) ansW : ℚ) /
            (claimTotal (dbQuiz.questions.filter
              (fun q => q.id ∈ quizW.question_ids)) : ℚ) * 100),
          claimEarned (dbQuiz.questions.filter (fun q => q.id ∈ quizW.question_ids)) ansW,
          claimTotal (dbQuiz.questions.filter (fun q => q.id ∈ quizW.question_ids)),
          passed)) := by
  have h10 : claimEarned (dbQuiz.questions.filter
      (fun q => q.id ∈ quizW.question_ids)) ansW = 10 := by decide
  have h15 : claimTotal (dbQuiz.questions.filter
      (fun q => q.id ∈ quizW.question_ids)) = 15 := by decide
  refine ⟨by decide, by decide, by decide, by decide, h10, h15, ?_, ?_⟩
  · rw [h10, h15, round2, round_eq]
    have hfl : ⌊(((10 : Int) : ℚ) / ((15 : Int) : ℚ) * 100) * 100 + 1 / 2⌋ = 6667 := by
      rw [Int.floor_eq_iff]
      norm_num
    rw [hfl]
    norm_num
  · exact C6_quiz_scoring dbQuiz "at1" ansW uStu "g1" attW quizW (by decide) (by decide)
      (by decide) (by decide) (by decide) (by decide)

end EduApp
